import Mathlib

/-!
Verification of the Audio-Transcription-Platform python service
(`app/utils.py`, `app/job_manager.py`, `app/whisper_service.py`,
`app/main.py`) against its natural-language specification.

The Python code is shallowly embedded: every external effect
(filesystem probes, subprocess invocations of ffmpeg/ffprobe, librosa
decoding) is fixed by an explicit environment value, and each translated
function returns the emitted progress percentages, the scratch files left
on disk, and an `Except` value mirroring Python exception flow.
-/

namespace AudioPlatform

/-- Python exception values raised by the translated code paths.
`ape` is `AudioProcessingError(message, original_error, processing_step)`
from `app/exceptions.py`; the other constructors mirror the service's
remaining exception classes and the built-in Python exceptions reached by
the translated code. -/
inductive PyExc where
  | ape (processing_step : String) (message : String) (original_error : String)
  | invalidAudioFormat (file_format : String)
  | fileTooLarge (file_size : Nat) (max_size : Nat)
  | fileSystemError (message : String)
  | timeoutExpired
  | fileNotFoundError
  | valueError
  | genericError (msg : String)
  deriving DecidableEq

/-- First `n` characters of a string (Python `s[:n]`). -/
def strTake (s : String) (n : Nat) : String := ⟨s.toList.take n⟩

/-- Modelled from the spec: `app/exceptions.py` is not under `src/` (only its
importers are), and the spec states that a processing error carries "the
tool's captured diagnostic text (truncated to a bounded length)".  The
`AudioProcessingError` constructor is modelled as truncating its
`original_error` text to 200 characters, the truncation bound `utils.py`
itself uses for diagnostics (`error_msg[:200]`, lines 190 and 196). -/
def mkAPE (step message original_error : String) : PyExc :=
  .ape step message (strTake original_error 200)

/-- Modelled from the spec: the rendering `str(e)` of an exception (class
definitions in the missing `exceptions.py`) is taken to present the message
followed by the underlying diagnostic text. -/
def excStr : PyExc → String
  | .ape _ m o => m ++ ": " ++ o
  | .invalidAudioFormat f => "Invalid audio format: " ++ f
  | .fileTooLarge _ _ => "File too large"
  | .fileSystemError m => m
  | .timeoutExpired => "TimeoutExpired"
  | .fileNotFoundError => "FileNotFoundError"
  | .valueError => "ValueError"
  | .genericError m => m

/-! ## Job registry (`app/job_manager.py`) -/

/-- `JobStatus` enum (job_manager.py lines 11-17). -/
inductive JobStatus where
  | pending | processing | completed | failed | cancelled
  deriving DecidableEq

/-- One transcription segment of a response (`app/models.py` shape as
constructed in whisper_service.py lines 388-393). -/
structure TranscriptionSegment where
  start_time : ℚ
  end_time : ℚ
  text : String
  confidence : Option ℚ
  deriving DecidableEq

/-- The response payload stored into a completed job (whisper_service.py
lines 424-432; `model_used`/`processing_time` metadata omitted as they play
no role in the job-state claims). -/
structure TranscriptionResponse where
  text : String
  language : Option String
  duration : ℚ
  segments : List TranscriptionSegment
  confidence_score : Option ℚ
  deriving DecidableEq

/-- A `Job`'s mutable fields (job_manager.py lines 23-32; timestamps and the
lock are not modelled — every mutator below is the body it runs under the
lock). -/
structure Job where
  status : JobStatus
  progress : ℚ
  message : String
  result : Option TranscriptionResponse
  error : Option String
  deriving DecidableEq

/-- `Job.__init__` (lines 23-32). -/
def Job.new : Job :=
  { status := .pending, progress := 0, message := "Job created",
    result := none, error := none }

/-- Python `min(a, b)` on rationals. -/
def pyMin (a b : ℚ) : ℚ := if a ≤ b then a else b

/-- Python `max(a, b)` on rationals. -/
def pyMax (a b : ℚ) : ℚ := if a ≤ b then b else a

/-- Python `if message: self.message = message` — `None` and the empty
string both leave the stored message unchanged. -/
def pyMessageOr (message : Option String) (old : String) : String :=
  match message with
  | some m => if m = "" then old else m
  | none => old

/-- `Job.update_progress` (lines 34-40): clamps into [0, 100]. -/
def Job.update_progress (j : Job) (progress : ℚ) (message : Option String) : Job :=
  { j with progress := pyMax 0 (pyMin 100 progress),
           message := pyMessageOr message j.message }

/-- `Job.set_status` (lines 42-48). -/
def Job.set_status (j : Job) (status : JobStatus) (message : Option String) : Job :=
  { j with status := status, message := pyMessageOr message j.message }

/-- `Job.set_result` (lines 50-57). -/
def Job.set_result (j : Job) (result : TranscriptionResponse) : Job :=
  { j with result := some result, status := .completed, progress := 100,
           message := "Transcription completed" }

/-- `Job.set_error` (lines 59-65). -/
def Job.set_error (j : Job) (error : String) : Job :=
  { j with error := some error, status := .failed, message := error }

/-- One registry-mediated mutation of a job. -/
inductive JobMut where
  | update_progress (p : ℚ) (m : Option String)
  | set_status (s : JobStatus) (m : Option String)
  | set_result (r : TranscriptionResponse)
  | set_error (e : String)

def Job.applyMut (j : Job) : JobMut → Job
  | .update_progress p m => j.update_progress p m
  | .set_status s m => j.set_status s m
  | .set_result r => j.set_result r
  | .set_error e => j.set_error e

/-- A job after an arbitrary sequence of mutator calls. -/
def Job.applyAll (j : Job) (ms : List JobMut) : Job := ms.foldl Job.applyMut j

/-! ## Overall confidence (`app/whisper_service.py`) -/

/-- One element of the segment dictionary list that
`_create_transcription_response` consumes (whisper_service.py lines
341-347; only the fields the confidence computation reads are kept). -/
structure SegmentDict where
  text : String
  avg_logprob : Option ℚ
  no_speech_prob : Option ℚ
  deriving DecidableEq

/-- whisper_service.py lines 395-408: the overall `confidence_score` of a
transcription result — the mean of the non-null per-segment
`avg_logprob` values, mapped by `max(0, min(1, (avg + 1) / 2))`; `None`
when no segment carries one (or when the segment list is empty). -/
def confidence_score (segments : List SegmentDict) : Option ℚ :=
  if segments = [] then none
  else
    let confidences := segments.filterMap (fun s => s.avg_logprob)
    if confidences = [] then none
    else
      let avg_logprob := confidences.sum / (confidences.length : ℚ)
      some (pyMax 0 (pyMin 1 ((avg_logprob + 1) / 2)))

/-! ## Integrity prober (`app/utils.py`, `validate_audio_file_integrity`) -/

/-- Outcome of one `subprocess.run` of ffprobe as seen by the caller:
the process completed with an exit code and captured stderr, or the call
raised `subprocess.TimeoutExpired` / `FileNotFoundError` / some other
exception. -/
inductive ProbeRun where
  | completed (returncode : Int) (stderrText : String)
  | timeout
  | notFound
  | raised
  deriving DecidableEq

/-- Environment fixing the external effects of one
`validate_audio_file_integrity` call. -/
structure ProberEnv where
  /-- ffprobe requiring an audio stream (utils.py lines 152-168). -/
  audioProbe : ProbeRun
  /-- fallback ffprobe on the container only (lines 172-186). -/
  formatProbe : ProbeRun
  /-- whether `librosa.get_duration` succeeds (line 194). -/
  durationOk : Bool
  /-- `str(e)` of the librosa failure when it does not. -/
  durationErr : String
  deriving DecidableEq

/-- The decode-duration confirmation (utils.py lines 192-198). -/
def durationCheck (env : ProberEnv) : Bool × Option String :=
  if env.durationOk then (true, none)
  else (false, some ("File cannot be read as audio: " ++ strTake env.durationErr 200))

/-- utils.py lines 149-207: probe for an audio stream, fall back to a
container-only probe, then confirm with a decode-duration check.  The
`match` arms on `.timeout` / `.notFound` / `.raised` are the `except`
handlers at lines 200-207. -/
def validate_audio_file_integrity (env : ProberEnv) : Bool × Option String :=
  match env.audioProbe with
  | .timeout => (false, some "File validation timed out")
  | .notFound => (true, none)
  | .raised => (true, none)
  | .completed rc1 _ =>
    if rc1 ≠ 0 then
      match env.formatProbe with
      | .timeout => (false, some "File validation timed out")
      | .notFound => (true, none)
      | .raised => (true, none)
      | .completed rc2 err2 =>
        if rc2 ≠ 0 then (false, some ("File validation failed: " ++ strTake err2 200))
        else durationCheck env
    else durationCheck env

/-! ## Format sniffer (`app/utils.py`, `detect_audio_format`) -/

/-- The parsed ffprobe output consumed at line 73: the exit code of the
probe and the lowercased `format_name` field (`""` when absent). -/
structure ProbeFormat where
  returncode : Int
  format_name : String
  deriving DecidableEq

/-- Environment fixing the external effects of one `detect_audio_format`
call on a single path. -/
structure SnifferEnv where
  /-- `os.path.exists(file_path)` (line 45); `.error` = the call raised. -/
  pathExists : Except PyExc Bool
  /-- `os.path.getsize(file_path)` (line 48). -/
  getSize : Except PyExc Nat
  /-- `subprocess.run` of ffprobe plus `json.loads` of its stdout
  (lines 64-73); `.error` covers `FileNotFoundError`, timeout and JSON
  decode failures, all caught by the handler at line 98. -/
  probe : Except PyExc ProbeFormat
  /-- `open(file_path, 'rb').read(16)` (lines 102-103), as a byte list. -/
  header : Except PyExc (List Nat)
  /-- `get_file_extension(file_path)` — pure string computation. -/
  ext : String

/-- Bool substring test (Python `sub in s`): `sub` occurs contiguously in
`s`. -/
def strContainsSub (s sub : String) : Bool :=
  (List.range (s.toList.length + 1)).any (fun i => sub.toList.isPrefixOf (s.toList.drop i))

/-- utils.py lines 76-97: map a successfully probed `format_name` to a
tag; `none` means no branch matched and control falls through to
signature detection. -/
def probeFormatTag (format_name ext : String) : Option String :=
  if strContainsSub format_name "m4a" || strContainsSub format_name "mp4" then
    if ext = "m4a" then some "m4a"
    else if ext = "mp4" ∨ ext = "mov" ∨ ext = "m4v" then some ext
    else if strContainsSub format_name "audio" || strContainsSub format_name "aac" then some "m4a"
    else some "mp4"
  else if strContainsSub format_name "matroska" then
    some (if ext = "mkv" ∨ ext = "webm" then ext else "mkv")
  else if strContainsSub format_name "avi" then some "avi"
  else if strContainsSub format_name "flv" then some "flv"
  else if strContainsSub format_name "wmv" then some "wmv"
  else if strContainsSub format_name "3gp" then some "3gp"
  else none

/-- Python slice `l[a:b]` on a byte list. -/
def listSlice (l : List Nat) (a b : Nat) : List Nat := (l.drop a).take (b - a)

def sigID3 : List Nat := [0x49, 0x44, 0x33]
def sigRIFF : List Nat := [0x52, 0x49, 0x46, 0x46]
def sigWAVE : List Nat := [0x57, 0x41, 0x56, 0x45]
def sigOggS : List Nat := [0x4F, 0x67, 0x67, 0x53]
def sigFLaC : List Nat := [0x66, 0x4C, 0x61, 0x43]
def sigFtyp : List Nat := [0x66, 0x74, 0x79, 0x70]
def sigWMA : List Nat := [0x30, 0x26, 0xB2, 0x75]
def sigAVISpace : List Nat := [0x41, 0x56, 0x49, 0x20]
def sigMatroska : List Nat := [0x1A, 0x45, 0xDF, 0xA3]
def sigFLV : List Nat := [0x46, 0x4C, 0x56]
def sigWMV : List Nat := [0x30, 0x26, 0xB2, 0x75, 0x8E, 0x66, 0xCF, 0x11]
def sigAAC1 : List Nat := [0xFF, 0xF1]
def sigAAC2 : List Nat := [0xFF, 0xF9]

/-- utils.py lines 106-143: magic-byte signature matching.  In the source
the `with open(...)` block closes `f` at line 103, so `f.seek(0)` in the
`ftyp` branch (line 116) operates on a closed file and raises
`ValueError`; that is modelled by the `.error .valueError` arm, which the
caller's handler at line 145 turns into the extension fallback.  In the
Matroska branch an extension outside {mkv, webm} falls through to the
extension fallback at line 143 (`.ok none`).  The `wmv` branch is dead:
its 8-byte signature is shadowed by the 4-byte `wma` prefix above it. -/
def signatureTag (header : List Nat) (ext : String) : Except PyExc (Option String) :=
  if sigID3.isPrefixOf header || listSlice header 1 4 == sigID3 then .ok (some "mp3")
  else if sigRIFF.isPrefixOf header && listSlice header 8 12 == sigWAVE then .ok (some "wav")
  else if sigOggS.isPrefixOf header then .ok (some "ogg")
  else if sigFLaC.isPrefixOf header then .ok (some "flac")
  else if listSlice header 4 8 == sigFtyp then .error .valueError
  else if sigWMA.isPrefixOf header then .ok (some "wma")
  else if sigRIFF.isPrefixOf header && listSlice header 8 12 == sigAVISpace then .ok (some "avi")
  else if sigMatroska.isPrefixOf header then
    .ok (if ext = "mkv" ∨ ext = "webm" then some ext else none)
  else if sigFLV.isPrefixOf header then .ok (some "flv")
  else if sigWMV.isPrefixOf header then .ok (some "wmv")
  else if sigAAC1.isPrefixOf header || sigAAC2.isPrefixOf header then .ok (some "aac")
  else .ok none

/-- An external-tool invocation recorded by a run. -/
inductive ToolEvent where
  | ffprobe
  | ffmpeg
  deriving DecidableEq

/-- The inner `try` of `detect_audio_format` (utils.py lines 56-99): the
tag obtained from the probe, `none` when the probe raised (the handler at
line 98 is `pass`), exited nonzero, or matched no format branch. -/
def probedTag (env : SnifferEnv) : Option String :=
  match env.probe with
  | .error _ => none
  | .ok pr => if pr.returncode = 0 then probeFormatTag pr.format_name env.ext else none

/-- utils.py lines 41-146: detect the media format of a file.  Returns the
trace of external-tool invocations together with the detected tag.  The
result type mirrors Python exception flow; every branch ends in `.ok`
because every `except` handler of the source returns a value (lines
51-52, 98-99, 145-146). -/
def detect_audio_format (env : SnifferEnv) : Except PyExc (List ToolEvent × Option String) :=
  -- try (lines 43-52): any exception while checking existence/size → None
  match env.pathExists with
  | .error _ => .ok ([], none)
  | .ok ex =>
    if !ex then .ok ([], none)          -- lines 45-46: missing file
    else
      match env.getSize with
      | .error _ => .ok ([], none)
      | .ok sz =>
        if sz = 0 then .ok ([], none)   -- lines 49-50: empty file
        else
          match probedTag env with
          | some t => .ok ([.ffprobe], some t)
          | none =>
            match env.header with
            | .error _ => .ok ([.ffprobe], some env.ext)   -- handler at line 145
            | .ok h =>
              match signatureTag h env.ext with
              | .error _ => .ok ([.ffprobe], some env.ext) -- handler at line 145
              | .ok (some t) => .ok ([.ffprobe], some t)
              | .ok none => .ok ([.ffprobe], some env.ext) -- line 143: extension fallback

/-- A detector result carrying no usable tag: Python `None` or the empty
string (both falsy; `validate_audio_file` line 568 treats them alike). -/
def noTag : Option String → Bool
  | none => true
  | some s => s == ""

/-! ## File validation (`app/utils.py`, `validate_audio_file`) -/

/-- The format/size tunables consumed from `settings`.  `app/config.py` is
not under `src/`; these are left abstract and instantiated below from the
spec's wording where a concrete value is needed. -/
structure FormatSettings where
  max_file_size_bytes : Nat
  supported_formats : List String
  formats_requiring_conversion : List String
  deriving DecidableEq

/-- Environment fixing the external effects of one `validate_audio_file`
call; the sniffer it invokes sees the same file, so its environment is
derived from these fields. -/
structure ValidateEnv where
  /-- `os.path.exists` (line 547). -/
  pathExistsV : Bool
  /-- `os.path.getsize` (line 554). -/
  sizeV : Nat
  /-- ffprobe behaviour for the nested `detect_audio_format` call. -/
  probe : Except PyExc ProbeFormat
  /-- header bytes for the nested `detect_audio_format` call. -/
  header : Except PyExc (List Nat)
  /-- `get_file_extension(file_path)`. -/
  ext : String
  /-- whether `get_audio_info` (line 594) succeeds. -/
  audioInfoOk : Bool
  /-- duration reported by `get_audio_info` on success. -/
  durationV : Option ℚ
  /-- sample rate reported by `get_audio_info` on success. -/
  sampleRateV : Option ℚ

/-- The sniffer environment seen by the `detect_audio_format` call nested
inside `validate_audio_file` — same file, so same existence/size/probe
data. -/
def sniffEnvOf (env : ValidateEnv) : SnifferEnv :=
  { pathExists := .ok env.pathExistsV, getSize := .ok env.sizeV,
    probe := env.probe, header := env.header, ext := env.ext }

/-- The validation dictionary returned by `validate_audio_file` (lines
583-613; the rounded `file_size_mb` display value is not modelled). -/
structure ValidationInfo where
  valid : Bool
  format : Option String
  file_size : Nat
  duration : Option ℚ
  sample_rate : Option ℚ
  deriving DecidableEq

/-- utils.py lines 543-623: existence and size checks, format detection
with extension fallback (`format_to_check = detected_format or
extension`, line 568), support check, then best-effort audio info — any
`get_audio_info` failure still yields a `valid` result (handler at line
603). -/
def validate_audio_file (s : FormatSettings) (env : ValidateEnv) : Except PyExc ValidationInfo :=
  if !env.pathExistsV then .error (.fileSystemError "File does not exist")
  else if !(env.sizeV ≤ s.max_file_size_bytes) then
    .error (.fileTooLarge env.sizeV s.max_file_size_bytes)
  else
    let detected : Option String :=
      match detect_audio_format (sniffEnvOf env) with
      | .ok (_, t) => t
      | .error _ => none   -- unreachable: the sniffer never raises
    -- Python `or`: None and "" both fall back to the extension
    let format_to_check : String :=
      match detected with
      | some f => if f = "" then env.ext else f
      | none => env.ext
    if format_to_check = "" ∨ ¬ s.supported_formats.contains format_to_check then
      .error (.invalidAudioFormat (if format_to_check = "" then "unknown" else format_to_check))
    else
      -- `detected_format in settings.formats_requiring_conversion_set`
      -- (line 578); Python `None in set` is False
      let is_video : Bool :=
        match detected with
        | some f => s.formats_requiring_conversion.contains f
        | none => false
      if is_video then
        .ok { valid := true, format := detected, file_size := env.sizeV,
              duration := none, sample_rate := none }
      else if env.audioInfoOk then
        .ok { valid := true, format := detected, file_size := env.sizeV,
              duration := env.durationV, sample_rate := env.sampleRateV }
      else
        .ok { valid := true, format := detected, file_size := env.sizeV,
              duration := none, sample_rate := none }

/-! ## Transcoder (`app/utils.py`, `convert_audio_file` /
`convert_video_to_audio`) -/

/-- Outcome of the `subprocess.run` of ffmpeg. -/
inductive FfmpegRun where
  | completed (returncode : Int) (stderrText : String) (stdoutText : String)
  | timeout
  | notFound
  deriving DecidableEq

/-- Environment fixing the external effects of one transcoder call. -/
structure ConvEnv where
  run : FfmpegRun
  /-- path from `create_temp_file("wav")` (line 277 / 361). -/
  outPath : String
  /-- `os.path.exists(output_path)` after the run (line 320 / 404). -/
  outExists : Bool
  /-- `os.path.getsize(output_path)` (line 320 / 404). -/
  outSize : Nat
  deriving DecidableEq

instance instDecEqExcept {ε α : Type _} [DecidableEq ε] [DecidableEq α] :
    DecidableEq (Except ε α) := fun x y =>
  match x, y with
  | .ok a, .ok b =>
      if h : a = b then .isTrue (congrArg Except.ok h)
      else .isFalse (fun hc => h (Except.ok.inj hc))
  | .error a, .error b =>
      if h : a = b then .isTrue (congrArg Except.error h)
      else .isFalse (fun hc => h (Except.error.inj hc))
  | .ok _, .error _ => .isFalse (fun hc => Except.noConfusion hc)
  | .error _, .ok _ => .isFalse (fun hc => Except.noConfusion hc)

/-- What one transcoder call produces: the 0-100 stage-local percentages
sent to its progress callback, the scratch files it leaves on disk, and
its result.  Partial files a failed ffmpeg run may leave behind are not
modelled; the empty-but-existing output of a completed run is. -/
structure ConvResult where
  emitted : List ℚ
  created : List String
  result : Except PyExc String
  deriving DecidableEq

/-- The per-entry-point captions of the two transcoder functions
(utils.py lines 269-350 and 353-434 — identical mechanics). -/
structure ConvKind where
  step : String
  failMessage : String
  timeoutMessage : String
  deriving DecidableEq

def audioConvKind : ConvKind :=
  { step := "convert_audio_file",
    failMessage := "Failed to convert audio file",
    timeoutMessage := "Audio conversion timed out" }

def videoConvKind : ConvKind :=
  { step := "convert_video_to_audio",
    failMessage := "Failed to convert video/music file to audio",
    timeoutMessage := "Video conversion timed out" }

/-- utils.py lines 269-350 / 353-434.  Stage-local callback percentages
are 0, 10, 30, then 80 once the tool has run, then 100 on success.  The
`AudioProcessingError`s raised inside the `try` block (nonzero exit at
line 311/395, empty output at line 320/404) are caught again by the
generic `except Exception` handler (line 345/429) and re-wrapped, so the
tool diagnostic reaches the final error through `str(e)`.  The timeout
message's interpolated seconds value (from the missing `config.py`) is
not modelled. -/
def runConvert (k : ConvKind) (env : ConvEnv) : ConvResult :=
  match env.run with
  | .timeout =>
      { emitted := [0, 10, 30], created := [],
        result := .error (mkAPE k.step k.timeoutMessage "FFmpeg conversion timeout") }
  | .notFound =>
      { emitted := [0, 10, 30], created := [],
        result := .error (mkAPE k.step "FFmpeg not found. Please ensure ffmpeg is installed."
                            "FFmpeg executable not found") }
  | .completed rc se so =>
      if rc ≠ 0 then
        -- `result.stderr or result.stdout or "Unknown ffmpeg error"`
        let error_msg := if se ≠ "" then se else if so ≠ "" then so else "Unknown ffmpeg error"
        let inner := mkAPE k.step k.failMessage error_msg
        { emitted := [0, 10, 30, 80], created := [],
          result := .error (mkAPE k.step k.failMessage (excStr inner)) }
      else if !env.outExists || env.outSize = 0 then
        let inner := mkAPE k.step "Conversion produced empty or missing output file"
                       "Output file verification failed"
        { emitted := [0, 10, 30, 80],
          created := if env.outExists then [env.outPath] else [],
          result := .error (mkAPE k.step k.failMessage (excStr inner)) }
      else
        { emitted := [0, 10, 30, 80, 100], created := [env.outPath],
          result := .ok env.outPath }

/-- `convert_audio_file` (utils.py lines 269-350). -/
def convert_audio_file (env : ConvEnv) : ConvResult := runConvert audioConvKind env

/-- `convert_video_to_audio` (utils.py lines 353-434). -/
def convert_video_to_audio (env : ConvEnv) : ConvResult := runConvert videoConvKind env

/-! ## Preprocessing pipeline (`app/utils.py`, `preprocess_audio`) -/

/-- Progress tunables consumed from `settings`.  Modelled from the spec:
`app/config.py` is not under `src/`; the spec fixes the split
"preprocessing occupies a configurable low sub-range (e.g., 0-40),
transcription occupies the remaining sub-range (e.g., 40-100)". -/
structure PipelineSettings where
  preprocessing_progress_max : ℚ
  transcription_progress_min : ℚ
  transcription_progress_max : ℚ
  formats_requiring_conversion : List String
  deriving DecidableEq

/-- Modelled from the spec: the concrete values of the missing
`config.py` — progress split 0-40 / 40-100, and the
"requires conversion" set as the container formats the spec calls
"formats whose primary payload is typically video" (the tags the sniffer
can produce for video containers). -/
def specSettings : PipelineSettings :=
  { preprocessing_progress_max := 40,
    transcription_progress_min := 40,
    transcription_progress_max := 100,
    formats_requiring_conversion := ["mp4", "avi", "mov", "mkv", "webm", "flv", "wmv", "3gp", "m4v"] }

/-- The `update_progress` helper of `preprocess_audio` (utils.py lines
447-452): map a stage-local percentage into the job-global scale by
`progress * (settings.preprocessing_progress_max / 100.0)`. -/
def mapPreprocessing (s : PipelineSettings) (progress : ℚ) : ℚ :=
  progress * (s.preprocessing_progress_max / 100)

/-- The `transcription_callback` of `WhisperService.transcribe_audio`
(whisper_service.py lines 220-225): map a stage-local percentage into
`[transcription_progress_min, transcription_progress_max]`. -/
def mapTranscription (s : PipelineSettings) (progress : ℚ) : ℚ :=
  s.transcription_progress_min +
    progress * (s.transcription_progress_max - s.transcription_progress_min) / 100

/-- The audio-extension list hard-coded at utils.py line 460. -/
def audioFormatList : List String := ["mp3", "wav", "m4a", "flac", "ogg", "wma", "aac"]

/-- Environment fixing the external effects of one `preprocess_audio`
run. -/
structure PipelineEnv where
  /-- the uploaded file's path. -/
  inputPath : String
  /-- `get_file_extension(file_path)` (line 458). -/
  ext : String
  /-- external effects of the `validate_audio_file_integrity` call
  (line 474). -/
  prober : ProberEnv
  /-- ffmpeg behaviour for the conversion at line 467 (video) or
  line 478 (invalid audio). -/
  initialConv : ConvEnv
  /-- ffmpeg behaviour for the rescue conversion at line 496. -/
  rescueConv : ConvEnv
  /-- whether `get_audio_info` (line 486) succeeds. -/
  audioInfoOk : Bool
  /-- whether the `librosa.load` at line 491 succeeds. -/
  load0 : Bool
  /-- whether the `librosa.load` at line 498 succeeds (it runs even when
  the first attempt succeeded). -/
  load1 : Bool
  /-- whether the decoded sample rate differs from the target
  (line 510). -/
  srDiffers : Bool
  /-- path from `create_temp_file("wav")` for the final output
  (line 521). -/
  outPath : String
  deriving DecidableEq

/-- What one `preprocess_audio` run produces: the job-global percentages
emitted through the progress callback, the scratch files this run leaves
on disk afterwards, the number of transcoder invocations, the number of
`librosa.load` attempts, and the result. -/
structure RunResult where
  emitted : List ℚ
  disk : List String
  conversions : Nat
  decodes : Nat
  outcome : Except PyExc String
  deriving DecidableEq

/-- The outer `except` handler of `preprocess_audio` (utils.py lines
529-540): delete a pending converted intermediate (`cleanup_temp_file`
swallows its own failures), then wrap the exception into an
`AudioProcessingError` with step `preprocess_audio`. -/
def pipelineFail (emitted : List ℚ) (disk : List String) (convs decs : Nat)
    (converted : Option String) (e : PyExc) : RunResult :=
  let disk' := match converted with
    | some c => if c ∈ disk then disk.erase c else disk
    | none => disk
  { emitted := emitted, disk := disk', conversions := convs, decodes := decs,
    outcome := .error (mkAPE "preprocess_audio" "Failed to preprocess audio" (excStr e)) }

/-- utils.py lines 500-527, reached once the decode at line 498 has
succeeded: the intermediate-cleanup attempt, resample/normalize, and the
final output write.  The cleanup guard `converted_file != file_path`
(line 501) is modelled as written; note that every assignment of
`converted_file` in the source is immediately followed by
`file_path = converted_file`, so the guard never fires when a conversion
happened. -/
def pipelineSuccessPhase (s : PipelineSettings) (env : PipelineEnv)
    (emitted : List ℚ) (disk : List String) (convs decs : Nat)
    (converted : Option String) (file : String) : RunResult :=
  let m := mapPreprocessing s
  let disk := match converted with
    | some c => if c ∈ disk ∧ c ≠ file then disk.erase c else disk
    | none => disk
  let emitted := emitted ++ [m 36]                               -- line 508
  let emitted := if env.srDiffers then emitted ++ [m 37] else emitted  -- line 511
  let emitted := emitted ++ [m 38, m 39]                         -- lines 516, 520
  let disk := env.outPath :: disk                                -- lines 521-524
  let emitted := emitted ++ [m 40]                               -- line 526
  { emitted := emitted, disk := disk, conversions := convs, decodes := decs,
    outcome := .ok env.outPath }

/-- utils.py lines 484-527: audio analysis, the decode attempt at line
491 with its single rescue conversion (lines 493-497), the unconditional
re-decode at line 498, then the success phase.  The librosa error text is
not modelled (a fixed marker string stands for `str(e)`). -/
def pipelineDecodePhase (s : PipelineSettings) (env : PipelineEnv)
    (emitted : List ℚ) (disk : List String) (convs : Nat)
    (converted : Option String) (file : String) : RunResult :=
  let m := mapPreprocessing s
  let emitted := emitted ++ [m 30]                               -- line 485
  if !env.audioInfoOk then
    -- get_audio_info raised (utils.py line 262); the outer handler wraps it
    pipelineFail emitted disk convs 0 converted
      (mkAPE "get_audio_info" "Failed to get audio information" "librosa failure")
  else
    let emitted := emitted ++ [m 32]                             -- line 488
    if env.load0 then
      -- line 498 decodes again even though the attempt at 491 succeeded
      if env.load1 then
        pipelineSuccessPhase s env emitted disk convs 2 converted file
      else
        pipelineFail emitted disk convs 2 converted (.genericError "librosa.load failed")
    else
      match converted with
      | some _ =>
          -- line 494: a conversion already happened in this run, so the
          -- handler body is skipped and line 498 retries on the same file
          if env.load1 then
            pipelineSuccessPhase s env emitted disk convs 2 converted file
          else
            pipelineFail emitted disk convs 2 converted (.genericError "librosa.load failed")
      | none =>
          let emitted := emitted ++ [m 35]                       -- line 495
          let conv := convert_audio_file env.rescueConv          -- line 496
          let emitted := emitted ++ conv.emitted.map (fun p => m (35 + p * (5 / 100)))
          let disk := disk ++ conv.created
          match conv.result with
          | .error e => pipelineFail emitted disk (convs + 1) 1 none e
          | .ok newFile =>
              if env.load1 then
                pipelineSuccessPhase s env emitted disk (convs + 1) 2 (some newFile) newFile
              else
                pipelineFail emitted disk (convs + 1) 2 (some newFile)
                  (.genericError "librosa.load failed")

/-- Python truthiness of the prober's optional detail string (the
`or error_msg` at utils.py line 476). -/
def optStrTruthy : Option String → Bool
  | some s => s != ""
  | none => false

/-- utils.py lines 437-540: the preprocessing pipeline over an
environment fixing every external effect.  Job-global percentages are the
stage-local checkpoints mapped through `mapPreprocessing`; nested
transcoder callbacks are mapped through the closures at lines 467, 478
and 496. -/
def preprocess_audio (s : PipelineSettings) (env : PipelineEnv) : RunResult :=
  let m := mapPreprocessing s
  let emitted : List ℚ := [m 0]                                  -- line 455
  let is_video := s.formats_requiring_conversion.contains env.ext  -- line 459
  let is_audio := audioFormatList.contains env.ext               -- line 460
  let emitted := emitted ++ [m 2]                                -- line 462
  if is_video then
    let emitted := emitted ++ [m 5]                              -- line 466
    let conv := convert_video_to_audio env.initialConv           -- line 467
    let emitted := emitted ++ conv.emitted.map (fun p => m (5 + p * (25 / 100)))
    let disk := conv.created
    match conv.result with
    | .error e => pipelineFail emitted disk 1 0 none e
    | .ok f =>
        let emitted := emitted ++ [m 30]                         -- line 469
        pipelineDecodePhase s env emitted disk 1 (some f) f
  else if is_audio then
    let emitted := emitted ++ [m 5]                              -- line 473
    let iv := validate_audio_file_integrity env.prober           -- line 474
    if !iv.1 || optStrTruthy iv.2 then                           -- line 476
      let emitted := emitted ++ [m 10]                           -- line 477
      let conv := convert_audio_file env.initialConv             -- line 478
      let emitted := emitted ++ conv.emitted.map (fun p => m (10 + p * (20 / 100)))
      let disk := conv.created
      match conv.result with
      | .error e => pipelineFail emitted disk 1 0 none e
      | .ok f =>
          let emitted := emitted ++ [m 30]                       -- line 480
          pipelineDecodePhase s env emitted disk 1 (some f) f
    else
      let emitted := emitted ++ [m 10]                           -- line 482
      pipelineDecodePhase s env emitted [] 0 none env.inputPath
  else
    pipelineDecodePhase s env emitted [] 0 none env.inputPath

/-! ## Concrete environments used to evaluate the pipeline -/

/-- An ffmpeg invocation that succeeds and produces a non-empty output at
`p`. -/
def okConv (p : String) : ConvEnv :=
  { run := .completed 0 "" "", outPath := p, outExists := true, outSize := 1000 }

/-- A prober environment in which ffprobe and librosa both succeed. -/
def okProber : ProberEnv :=
  { audioProbe := .completed 0 "", formatProbe := .completed 0 "",
    durationOk := true, durationErr := "" }

/-- An MP4 upload whose video-to-audio conversion and decode both
succeed. -/
def envVideoOk : PipelineEnv :=
  { inputPath := "in.mp4", ext := "mp4", prober := okProber,
    initialConv := okConv "conv.wav", rescueConv := okConv "resc.wav",
    audioInfoOk := true, load0 := true, load1 := true, srDiffers := false,
    outPath := "out.wav" }

/-- A WAV upload that passes integrity validation, fails the first decode
(line 491), is rescued by one conversion, and then decodes. -/
def envRescue : PipelineEnv :=
  { inputPath := "in.wav", ext := "wav", prober := okProber,
    initialConv := okConv "conv.wav", rescueConv := okConv "resc.wav",
    audioInfoOk := true, load0 := false, load1 := true, srDiffers := false,
    outPath := "out.wav" }

/-- Like `envRescue`, but the decode retry at line 498 fails as well. -/
def envRescueFail : PipelineEnv :=
  { inputPath := "in.wav", ext := "wav", prober := okProber,
    initialConv := okConv "conv.wav", rescueConv := okConv "resc.wav",
    audioInfoOk := true, load0 := false, load1 := false, srDiffers := false,
    outPath := "out.wav" }

/-- Modelled from the spec: the format tunables of the missing
`config.py` — the supported set covers the audio tags of utils.py line
460 plus the video-container tags, and the conversion-requiring set is
the video-container list of `specSettings`. -/
def specFormatSettings : FormatSettings :=
  { max_file_size_bytes := 500 * 1024 * 1024,
    supported_formats := ["mp3", "wav", "m4a", "flac", "ogg", "wma", "aac",
      "mp4", "avi", "mov", "mkv", "webm", "flv", "wmv", "3gp", "m4v"],
    formats_requiring_conversion := specSettings.formats_requiring_conversion }

/-- A zero-byte upload named with a supported audio extension. -/
def zeroByteMp3Env : ValidateEnv :=
  { pathExistsV := true, sizeV := 0, probe := .error .fileNotFoundError,
    header := .ok [], ext := "mp3", audioInfoOk := false,
    durationV := none, sampleRateV := none }

/-- A zero-byte upload with an unsupported extension. -/
def zeroByteTxtEnv : ValidateEnv :=
  { pathExistsV := true, sizeV := 0, probe := .error .fileNotFoundError,
    header := .ok [], ext := "txt", audioInfoOk := false,
    durationV := none, sampleRateV := none }

/-! ## Helper lemmas -/

theorem strTake_length_le (s : String) (n : Nat) : (strTake s n).length ≤ n := by
  show (s.toList.take n).length ≤ n
  simp [List.length_take]

theorem pyMax_ge_left (a b : ℚ) : a ≤ pyMax a b := by
  unfold pyMax
  split
  · assumption
  · exact le_refl a

theorem pyMax_le (a b c : ℚ) (h1 : a ≤ c) (h2 : b ≤ c) : pyMax a b ≤ c := by
  unfold pyMax
  split <;> assumption

theorem pyMin_le_left (a b : ℚ) : pyMin a b ≤ a := by
  unfold pyMin
  split
  · exact le_refl a
  · exact le_of_not_le (by assumption)

theorem Job.progress_bounds_applyMut (j : Job) (m : JobMut)
    (h0 : 0 ≤ j.progress) (h1 : j.progress ≤ 100) :
    0 ≤ (j.applyMut m).progress ∧ (j.applyMut m).progress ≤ 100 := by
  cases m with
  | update_progress p msg =>
      refine ⟨pyMax_ge_left _ _, ?_⟩
      exact pyMax_le _ _ _ (by norm_num) (pyMin_le_left _ _)
  | set_status s msg => exact ⟨h0, h1⟩
  | set_result r => simp [Job.applyMut, Job.set_result]
  | set_error e => exact ⟨h0, h1⟩

theorem Job.progress_bounds_applyAll (ms : List JobMut) (j : Job)
    (h0 : 0 ≤ j.progress) (h1 : j.progress ≤ 100) :
    0 ≤ (j.applyAll ms).progress ∧ (j.applyAll ms).progress ≤ 100 := by
  induction ms generalizing j with
  | nil => exact ⟨h0, h1⟩
  | cons m rest ih =>
      have h := Job.progress_bounds_applyMut j m h0 h1
      exact ih (j.applyMut m) h.1 h.2

theorem pipelineFail_fields (em : List ℚ) (dk : List String) (cv dc : Nat)
    (cb : Option String) (e : PyExc) :
    (pipelineFail em dk cv dc cb e).conversions = cv
    ∧ (pipelineFail em dk cv dc cb e).decodes = dc
    ∧ ∃ msg orig, (pipelineFail em dk cv dc cb e).outcome =
        .error (.ape "preprocess_audio" msg orig) :=
  ⟨rfl, rfl, _, _, rfl⟩

theorem pipelineSuccessPhase_fields (s : PipelineSettings) (env : PipelineEnv)
    (em : List ℚ) (dk : List String) (cv dc : Nat) (cb : Option String) (f : String) :
    (pipelineSuccessPhase s env em dk cv dc cb f).conversions = cv
    ∧ (pipelineSuccessPhase s env em dk cv dc cb f).decodes = dc
    ∧ (pipelineSuccessPhase s env em dk cv dc cb f).outcome = .ok env.outPath :=
  ⟨rfl, rfl, rfl⟩

theorem pipelineDecodePhase_bounds (s : PipelineSettings) (env : PipelineEnv)
    (em : List ℚ) (dk : List String) (cv : Nat) (cb : Option String) (f : String) :
    (pipelineDecodePhase s env em dk cv cb f).conversions ≤
      cv + (match cb with | none => 1 | some _ => 0)
    ∧ (pipelineDecodePhase s env em dk cv cb f).decodes ≤ 2 := by
  unfold pipelineDecodePhase
  rcases cb with _ | c
  · cases hinfo : env.audioInfoOk
    · simp [hinfo, pipelineFail]
    · cases h0 : env.load0
      · rcases hr : (convert_audio_file env.rescueConv).result with e | g
        · simp [hinfo, h0, hr, pipelineFail]
        · cases h1 : env.load1
          · simp [hinfo, h0, hr, h1, pipelineFail]
          · simp [hinfo, h0, hr, h1, pipelineSuccessPhase]
      · cases h1 : env.load1
        · simp [hinfo, h0, h1, pipelineFail]
        · simp [hinfo, h0, h1, pipelineSuccessPhase]
  · cases hinfo : env.audioInfoOk
    · simp [hinfo, pipelineFail]
    · cases h0 : env.load0 <;> cases h1 : env.load1 <;>
        simp [hinfo, h0, h1, pipelineFail, pipelineSuccessPhase]

theorem pipelineDecodePhase_rescue (s : PipelineSettings) (env : PipelineEnv)
    (em : List ℚ) (dk : List String) (cv : Nat) (f : String)
    (hinfo : env.audioInfoOk = true) (h0 : env.load0 = false) :
    (pipelineDecodePhase s env em dk cv none f).conversions = cv + 1
    ∧ (∀ g, (convert_audio_file env.rescueConv).result = .ok g →
        (pipelineDecodePhase s env em dk cv none f).decodes = 2
        ∧ (env.load1 = false → ∃ msg orig,
            (pipelineDecodePhase s env em dk cv none f).outcome =
              .error (.ape "preprocess_audio" msg orig))) := by
  unfold pipelineDecodePhase
  rcases hr : (convert_audio_file env.rescueConv).result with e | g
  · refine ⟨by simp [hinfo, h0, hr, pipelineFail], ?_⟩
    intro g hg
    exact absurd hg (by simp)
  · cases h1 : env.load1
    · refine ⟨by simp [hinfo, h0, hr, h1, pipelineFail], ?_⟩
      intro g' hg'
      refine ⟨by simp [hinfo, h0, hr, h1, pipelineFail], ?_⟩
      intro _
      exact ⟨"Failed to preprocess audio",
        strTake (excStr (PyExc.genericError "librosa.load failed")) 200,
        by simp [hinfo, h0, hr, h1, pipelineFail, mkAPE]⟩
    · refine ⟨by simp [hinfo, h0, hr, h1, pipelineSuccessPhase], ?_⟩
      intro g' hg'
      refine ⟨by simp [hinfo, h0, hr, h1, pipelineSuccessPhase], ?_⟩
      intro hcontr
      exact Bool.noConfusion hcontr

theorem run_envVideoOk :
    preprocess_audio specSettings envVideoOk =
      { emitted := [0, 4/5, 2, 2, 3, 5, 10, 12, 12, 12, 64/5, 72/5, 76/5, 78/5, 16],
        disk := ["out.wav", "conv.wav"], conversions := 1, decodes := 2,
        outcome := .ok "out.wav" } := by
  norm_num [preprocess_audio, pipelineDecodePhase, pipelineSuccessPhase, envVideoOk, okConv,
    okProber, specSettings, mapPreprocessing, convert_video_to_audio, convert_audio_file,
    runConvert, videoConvKind, audioConvKind, validate_audio_file_integrity, durationCheck,
    optStrTruthy, audioFormatList, List.contains]

theorem run_envRescue :
    preprocess_audio specSettings envRescue =
      { emitted := [0, 4/5, 2, 4, 12, 64/5, 14, 14, 71/5, 73/5, 78/5, 16, 72/5, 76/5, 78/5, 16],
        disk := ["out.wav", "resc.wav"], conversions := 1, decodes := 2,
        outcome := .ok "out.wav" } := by
  norm_num [preprocess_audio, pipelineDecodePhase, pipelineSuccessPhase, envRescue, okConv,
    okProber, specSettings, mapPreprocessing, convert_video_to_audio, convert_audio_file,
    runConvert, videoConvKind, audioConvKind, validate_audio_file_integrity, durationCheck,
    optStrTruthy, audioFormatList, List.contains]
  decide

theorem preprocess_audio_bounds (s : PipelineSettings) (env : PipelineEnv) :
    (preprocess_audio s env).conversions ≤ 1 ∧ (preprocess_audio s env).decodes ≤ 2 := by
  unfold preprocess_audio
  by_cases hv : env.ext ∈ s.formats_requiring_conversion
  · rcases hr : (convert_video_to_audio env.initialConv).result with e | f
    · simp [hv, hr, pipelineFail]
    · have hb := pipelineDecodePhase_bounds s env
        ([mapPreprocessing s 0] ++ [mapPreprocessing s 2] ++ [mapPreprocessing s 5] ++
          (convert_video_to_audio env.initialConv).emitted.map
            (fun p => mapPreprocessing s (5 + p * (25 / 100))) ++ [mapPreprocessing s 30])
        (convert_video_to_audio env.initialConv).created 1 (some f) f
      simpa [hv, hr] using hb
  · by_cases ha : env.ext ∈ audioFormatList
    · by_cases hiv : ((validate_audio_file_integrity env.prober).1 = false
        ∨ optStrTruthy (validate_audio_file_integrity env.prober).2 = true)
      · rcases hr : (convert_audio_file env.initialConv).result with e | f
        · simp [hv, ha, hiv, hr, pipelineFail]
        · have hb := pipelineDecodePhase_bounds s env
            ([mapPreprocessing s 0] ++ [mapPreprocessing s 2] ++ [mapPreprocessing s 5] ++
              [mapPreprocessing s 10] ++
              (convert_audio_file env.initialConv).emitted.map
                (fun p => mapPreprocessing s (10 + p * (20 / 100))) ++ [mapPreprocessing s 30])
            (convert_audio_file env.initialConv).created 1 (some f) f
          simpa [hv, ha, hiv, hr] using hb
      · have hb := pipelineDecodePhase_bounds s env
          ([mapPreprocessing s 0] ++ [mapPreprocessing s 2] ++ [mapPreprocessing s 5] ++
            [mapPreprocessing s 10]) [] 0 none env.inputPath
        simpa [hv, ha, hiv] using hb
    · have hb := pipelineDecodePhase_bounds s env
        ([mapPreprocessing s 0] ++ [mapPreprocessing s 2]) [] 0 none env.inputPath
      simpa [hv, ha] using hb

/-! ## Claim theorems -/

/-- C1: evaluation of `preprocess_audio` at the failing input — an MP4
upload whose conversion and decode both succeed.  The run returns the
canonical output, yet the intermediate converted file `conv.wav` is still
on disk afterwards: the cleanup at utils.py lines 500-506 is guarded by
`converted_file != file_path`, which is always false because every
assignment of `converted_file` is followed by `file_path =
converted_file`, contradicting the claimed cleanup invariant. -/
theorem C1_converted_intermediate_survives_success :
    (preprocess_audio specSettings envVideoOk).outcome = .ok "out.wav"
    ∧ "conv.wav" ∈ (preprocess_audio specSettings envVideoOk).disk
    ∧ "conv.wav" ≠ "out.wav" := by
  rw [run_envVideoOk]
  exact ⟨rfl, by simp, by decide⟩

/-- C2: evaluation of `preprocess_audio` on the decode-failure rescue
path (valid WAV, first decode fails, rescue conversion succeeds, retry
decodes).  The run completes, yet the emitted job-global progress
sequence is not non-decreasing: the rescue conversion's final callback
emits local 40 (global 16), after which the fixed checkpoint at line 508
emits local 36 (global 72/5 = 14.4), a strict decrease — contradicting
the claimed monotonicity on this path. -/
theorem C2_rescue_path_progress_decreases :
    (preprocess_audio specSettings envRescue).outcome = .ok "out.wav"
    ∧ (preprocess_audio specSettings envRescue).emitted.get? 11 = some 16
    ∧ (preprocess_audio specSettings envRescue).emitted.get? 12 = some (72/5)
    ∧ (72/5 : ℚ) < 16
    ∧ ¬ List.Chain' (· ≤ ·) (preprocess_audio specSettings envRescue).emitted := by
  rw [run_envRescue]
  refine ⟨rfl, rfl, rfl, by norm_num, ?_⟩
  intro h
  simp only [List.chain'_cons, List.chain'_singleton] at h
  have h16 : (16 : ℚ) ≤ 72/5 := h.2.2.2.2.2.2.2.2.2.2.2.1
  norm_num at h16

/-- C3: evaluation of `preprocess_audio` at a successful run under the
spec's progress split (preprocessing sub-range 0-40).  The emitted
job-global percentages are the stage-local values rescaled by
`preprocessing_progress_max / 100`, but the stage-local values themselves
only reach 40, so the final preprocessing emission is 16 — not the
sub-range's upper bound 40 where transcription's sub-range begins — and
every emission stays at or below 16, contradicting the claim that the
emissions span the sub-range and end at `preprocessing_progress_max`. -/
theorem C3_final_preprocessing_emission_below_submax :
    (preprocess_audio specSettings envVideoOk).outcome = .ok "out.wav"
    ∧ (preprocess_audio specSettings envVideoOk).emitted.getLast? = some 16
    ∧ specSettings.preprocessing_progress_max = 40
    ∧ mapTranscription specSettings 0 = 40
    ∧ (16 : ℚ) ≠ 40
    ∧ ∀ q ∈ (preprocess_audio specSettings envVideoOk).emitted, q ≤ 16 := by
  rw [run_envVideoOk]
  refine ⟨rfl, rfl, rfl, by norm_num [mapTranscription, specSettings], by norm_num, ?_⟩
  intro q hq
  fin_cases hq <;> norm_num

/-- C4: if the decode at line 491 raises and no conversion has yet
occurred in the run (not a video format, and integrity validation passed
when the format is audio), exactly one rescue conversion is attempted;
when it succeeds there is exactly one decode retry (two decode attempts
in total), and a second decode failure surfaces as an
`AudioProcessingError` — and over all environments the pipeline never
performs more than one conversion or more than two decode attempts, so
no third conversion ever happens. -/
theorem C4_single_rescue_then_fatal :
    (∀ (s : PipelineSettings) (env : PipelineEnv),
      env.ext ∉ s.formats_requiring_conversion →
      (env.ext ∉ audioFormatList ∨
        validate_audio_file_integrity env.prober = (true, none)) →
      env.audioInfoOk = true → env.load0 = false →
      (preprocess_audio s env).conversions = 1
      ∧ (∀ g, (convert_audio_file env.rescueConv).result = .ok g →
          (preprocess_audio s env).decodes = 2
          ∧ (env.load1 = false → ∃ msg orig,
              (preprocess_audio s env).outcome =
                .error (.ape "preprocess_audio" msg orig))))
    ∧ (∀ (s : PipelineSettings) (env : PipelineEnv),
        (preprocess_audio s env).conversions ≤ 1
        ∧ (preprocess_audio s env).decodes ≤ 2) := by
  constructor
  · intro s env hv hyp hinfo h0
    have key : preprocess_audio s env =
        pipelineDecodePhase s env
          ((if env.ext ∈ audioFormatList then
              [mapPreprocessing s 0, mapPreprocessing s 2, mapPreprocessing s 5,
                mapPreprocessing s 10]
            else [mapPreprocessing s 0, mapPreprocessing s 2])) [] 0 none env.inputPath := by
      by_cases ha : env.ext ∈ audioFormatList
      · rcases hyp with hyp | hyp
        · exact absurd ha hyp
        · unfold preprocess_audio
          simp [hv, ha, hyp, optStrTruthy]
      · unfold preprocess_audio
        simp [hv, ha]
    rw [key]
    have hr := pipelineDecodePhase_rescue s env
      ((if env.ext ∈ audioFormatList then
          [mapPreprocessing s 0, mapPreprocessing s 2, mapPreprocessing s 5,
            mapPreprocessing s 10]
        else [mapPreprocessing s 0, mapPreprocessing s 2])) [] 0 env.inputPath hinfo h0
    exact ⟨hr.1, hr.2⟩
  · intro s env
    exact preprocess_audio_bounds s env

/-- Witness for C4 at the concrete rescue-then-fail environment: the
pipeline performs exactly one conversion and two decode attempts, and the
second decode failure is surfaced as an `AudioProcessingError` from step
`preprocess_audio`. -/
theorem C4_single_rescue_then_fatal_witness :
    (preprocess_audio specSettings envRescueFail).conversions = 1
    ∧ (preprocess_audio specSettings envRescueFail).decodes = 2
    ∧ ∃ msg orig, (preprocess_audio specSettings envRescueFail).outcome =
        .error (.ape "preprocess_audio" msg orig) := by
  have h := C4_single_rescue_then_fatal.1 specSettings envRescueFail
    (by decide) (Or.inr rfl) rfl rfl
  have h2 := h.2 "resc.wav" rfl
  exact ⟨h.1, h2.1, h2.2 rfl⟩

/-- C10: every mutation of a `Job` keeps its stored progress within
[0, 100] — a new job starts at 0, `update_progress` clamps any supplied
value (negative or above 100 included) into [0, 100], `set_result` sets
exactly 100, and any sequence of registry-mediated mutations starting
from a fresh job leaves the progress in [0, 100]. -/
theorem C10_job_progress_in_range :
    Job.new.progress = 0
    ∧ (∀ (j : Job) (p : ℚ) (m : Option String),
        0 ≤ (j.update_progress p m).progress ∧ (j.update_progress p m).progress ≤ 100)
    ∧ (∀ (j : Job) (r : TranscriptionResponse), (j.set_result r).progress = 100)
    ∧ (∀ ms : List JobMut,
        0 ≤ (Job.new.applyAll ms).progress ∧ (Job.new.applyAll ms).progress ≤ 100) := by
  refine ⟨rfl, ?_, fun _ _ => rfl, ?_⟩
  · intro j p m
    exact ⟨pyMax_ge_left _ _, pyMax_le _ _ _ (by norm_num) (pyMin_le_left _ _)⟩
  · intro ms
    exact Job.progress_bounds_applyAll ms Job.new (le_refl 0) (by norm_num [Job.new])

/-- C9: the overall confidence is `None` exactly when no segment carries
a non-null `avg_logprob`; otherwise it is the arithmetic mean of those
log-probabilities mapped into [0, 1] by clamping `(avg + 1) / 2`, so any
reported confidence lies in [0, 1]. -/
theorem C9_confidence_score_spec :
    ∀ segments : List SegmentDict,
      (confidence_score segments = none ↔
        segments.filterMap (fun s => s.avg_logprob) = [])
      ∧ (∀ c, confidence_score segments = some c →
          c = pyMax 0 (pyMin 1 ((((segments.filterMap (fun s => s.avg_logprob)).sum /
                ((segments.filterMap (fun s => s.avg_logprob)).length : ℚ)) + 1) / 2))
          ∧ 0 ≤ c ∧ c ≤ 1) := by
  intro segments
  by_cases hseg : segments = []
  · subst hseg
    exact ⟨by simp [confidence_score], by simp [confidence_score]⟩
  · by_cases hcs : segments.filterMap (fun s => s.avg_logprob) = []
    · refine ⟨by simp [confidence_score, hseg, hcs], ?_⟩
      intro c hc
      simp [confidence_score, hseg, hcs] at hc
    · refine ⟨by simp [confidence_score, hseg, hcs], ?_⟩
      intro c hc
      simp only [confidence_score, if_neg hseg, if_neg hcs, Option.some.injEq] at hc
      refine ⟨hc.symm, ?_, ?_⟩
      · rw [← hc]; exact pyMax_ge_left _ _
      · rw [← hc]; exact pyMax_le _ _ _ (by norm_num) (pyMin_le_left _ _)

/-- Witness for C9 at a concrete one-segment list with
`avg_logprob = -1/2`: the mean is -1/2 and the clamped confidence is
1/4, which lies in [0, 1]. -/
theorem C9_confidence_score_witness :
    confidence_score [{ text := "hi", avg_logprob := some (-(1 : ℚ)/2), no_speech_prob := none }]
      = some (1/4)
    ∧ (0 : ℚ) ≤ 1/4 ∧ (1/4 : ℚ) ≤ 1 := by
  have hval : confidence_score
      [{ text := "hi", avg_logprob := some (-(1 : ℚ)/2), no_speech_prob := none }]
        = some (1/4) := by
    norm_num [confidence_score, List.filterMap, pyMax, pyMin]
  have h := (C9_confidence_score_spec
    [{ text := "hi", avg_logprob := some (-(1 : ℚ)/2), no_speech_prob := none }]).2
    (1/4) hval
  exact ⟨hval, h.2.1, h.2.2⟩

/-- C7: the integrity prober reports a timeout of either probe
invocation as a failure with a timeout detail, and reports tool absence
(`FileNotFoundError`) as success with no detail — absence is never a
failure. -/
theorem C7_integrity_prober_spec :
    ∀ env : ProberEnv,
      (env.audioProbe = .timeout →
        validate_audio_file_integrity env = (false, some "File validation timed out"))
      ∧ (∀ rc se, env.audioProbe = .completed rc se → rc ≠ 0 →
          env.formatProbe = .timeout →
          validate_audio_file_integrity env = (false, some "File validation timed out"))
      ∧ (env.audioProbe = .notFound →
          validate_audio_file_integrity env = (true, none)) := by
  intro env
  refine ⟨?_, ?_, ?_⟩
  · intro h; simp [validate_audio_file_integrity, h]
  · intro rc se h hrc hf
    simp [validate_audio_file_integrity, h, hrc, hf]
  · intro h; simp [validate_audio_file_integrity, h]

/-- Witness for C7 at concrete prober environments: a timed-out audio
probe, a missing probe tool, and a timed-out fallback probe after a
nonzero first exit. -/
theorem C7_integrity_prober_witness :
    validate_audio_file_integrity
        { audioProbe := .timeout, formatProbe := .completed 0 "", durationOk := true, durationErr := "" }
      = (false, some "File validation timed out")
    ∧ validate_audio_file_integrity
        { audioProbe := .notFound, formatProbe := .completed 0 "", durationOk := true, durationErr := "" }
      = (true, none)
    ∧ validate_audio_file_integrity
        { audioProbe := .completed 1 "x", formatProbe := .timeout, durationOk := true, durationErr := "" }
      = (false, some "File validation timed out") :=
  ⟨(C7_integrity_prober_spec _).1 rfl,
   (C7_integrity_prober_spec _).2.2 rfl,
   (C7_integrity_prober_spec _).2.1 1 "x" rfl (by decide) rfl⟩

/-- C5: for either transcoder entry point, a nonzero tool exit or a
missing/empty output file raises an `AudioProcessingError` carrying the
step name and a diagnostic bounded by 200 characters; every error either
entry point can raise is an `AudioProcessingError` with that step name —
never a raw subprocess error — and on nonzero exit the diagnostic embeds
the tool's captured stderr text (truncated). -/
theorem C5_transcoder_error_wrapping :
    ∀ (k : ConvKind) (env : ConvEnv),
      (∀ rc se so, env.run = .completed rc se so →
        (rc ≠ 0 ∨ env.outExists = false ∨ env.outSize = 0) →
        ∃ msg diag, (runConvert k env).result = .error (.ape k.step msg diag)
          ∧ diag.length ≤ 200)
      ∧ (∀ e, (runConvert k env).result = .error e →
          ∃ msg diag, e = .ape k.step msg diag)
      ∧ (∀ rc se so, env.run = .completed rc se so → rc ≠ 0 → se ≠ "" →
          (runConvert k env).result = .error (.ape k.step k.failMessage
            (strTake (k.failMessage ++ ": " ++ strTake se 200) 200))) := by
  intro k env
  refine ⟨?_, ?_, ?_⟩
  · intro rc se so hrun hbad
    by_cases hrc : rc = 0
    · subst hrc
      have hout : env.outExists = false ∨ env.outSize = 0 := by
        rcases hbad with h | h | h
        · exact absurd rfl h
        · exact Or.inl h
        · exact Or.inr h
      refine ⟨k.failMessage,
        strTake (excStr (mkAPE k.step "Conversion produced empty or missing output file"
          "Output file verification failed")) 200, ?_, strTake_length_le _ _⟩
      rcases hout with h | h <;> simp [runConvert, hrun, h, mkAPE]
    · refine ⟨k.failMessage,
        strTake (excStr (mkAPE k.step k.failMessage
          (if se ≠ "" then se else if so ≠ "" then so else "Unknown ffmpeg error"))) 200,
        ?_, strTake_length_le _ _⟩
      simp [runConvert, hrun, hrc, mkAPE]
  · intro e he
    rcases hrun : env.run with ⟨rc, se, so⟩ | _ | _
    · unfold runConvert at he
      rw [hrun] at he
      dsimp only at he
      split at he
      · exact ⟨_, _, (Except.error.inj he).symm⟩
      · split at he
        · exact ⟨_, _, (Except.error.inj he).symm⟩
        · exact Except.noConfusion he
    · unfold runConvert at he
      rw [hrun] at he
      exact ⟨_, _, (Except.error.inj he).symm⟩
    · unfold runConvert at he
      rw [hrun] at he
      exact ⟨_, _, (Except.error.inj he).symm⟩
  · intro rc se so hrun hrc hse
    simp [runConvert, hrun, hrc, hse, mkAPE, excStr]

/-- Witness for C5 at concrete transcoder environments: a nonzero ffmpeg
exit with captured stderr for `convert_audio_file`, and an empty output
file for `convert_video_to_audio`. -/
theorem C5_transcoder_error_wrapping_witness :
    (runConvert audioConvKind
        { run := .completed 1 "boom" "", outPath := "o.wav", outExists := false, outSize := 0 }).result
      = .error (.ape "convert_audio_file" "Failed to convert audio file"
          (strTake ("Failed to convert audio file" ++ ": " ++ strTake "boom" 200) 200))
    ∧ ∃ msg diag,
        (runConvert videoConvKind
            { run := .completed 0 "" "", outPath := "o.wav", outExists := true, outSize := 0 }).result
          = .error (.ape "convert_video_to_audio" msg diag) ∧ diag.length ≤ 200 := by
  constructor
  · exact (C5_transcoder_error_wrapping audioConvKind _).2.2 1 "boom" "" rfl
      (by decide) (by decide)
  · exact (C5_transcoder_error_wrapping videoConvKind _).1 0 "" "" rfl (Or.inr (Or.inr rfl))

/-- C8: the format sniffer is total — for every environment it returns a
value (`.ok`), never an exception; a missing file, a raising
existence/size check, or an empty file short-circuits to unknown with no
tool invocation; and when neither the probe nor a signature yields a tag
it falls back to the extension, which for an extensionless file is the
falsy unknown marker rather than an exception. -/
theorem C8_sniffer_total :
    (∀ env : SnifferEnv, ∃ r, detect_audio_format env = .ok r)
    ∧ (∀ env : SnifferEnv,
        (env.pathExists = .ok false ∨ (∃ e, env.pathExists = .error e)
          ∨ env.getSize = .ok 0 ∨ (∃ e, env.getSize = .error e)) →
        detect_audio_format env = .ok ([], none))
    ∧ (∀ (env : SnifferEnv) (n : Nat) (h : List Nat),
        env.pathExists = .ok true → env.getSize = .ok n → n ≠ 0 →
        probedTag env = none → env.header = .ok h →
        signatureTag h env.ext = .ok none →
        detect_audio_format env = .ok ([.ffprobe], some env.ext)
        ∧ (env.ext = "" → noTag (some env.ext) = true)) := by
  refine ⟨?_, ?_, ?_⟩
  · intro env
    obtain ⟨pe, gs, pb, hd, ext⟩ := env
    rcases pe with e | b
    · exact ⟨_, rfl⟩
    · cases b
      · exact ⟨_, rfl⟩
      · rcases gs with e | n
        · exact ⟨_, rfl⟩
        · by_cases hn : n = 0
          · subst hn; exact ⟨_, rfl⟩
          · simp only [detect_audio_format, Bool.not_true, if_neg hn]
            rcases hp : probedTag ⟨.ok true, .ok n, pb, hd, ext⟩ with _ | t
            · rcases hd with e | h
              · exact ⟨_, rfl⟩
              · rcases hs : signatureTag h ext with e | o
                · exact ⟨([.ffprobe], some ext), by simp [hs]⟩
                · rcases o with _ | t
                  · exact ⟨([.ffprobe], some ext), by simp [hs]⟩
                  · exact ⟨([.ffprobe], some t), by simp [hs]⟩
            · exact ⟨_, rfl⟩
  · intro env hcase
    rcases hcase with h | ⟨e, h⟩ | h | ⟨e, h⟩
    · simp [detect_audio_format, h]
    · simp [detect_audio_format, h]
    · rcases hpe : env.pathExists with e' | b
      · simp [detect_audio_format, hpe]
      · cases b
        · simp [detect_audio_format, hpe]
        · simp [detect_audio_format, hpe, h]
    · rcases hpe : env.pathExists with e' | b
      · simp [detect_audio_format, hpe]
      · cases b
        · simp [detect_audio_format, hpe]
        · simp [detect_audio_format, hpe, h]
  · intro env n h hpe hgs hn hp hh hs
    refine ⟨?_, fun hext => by simp [noTag, hext]⟩
    simp [detect_audio_format, hpe, hgs, hn, hp, hh, hs]

/-- Witness for C8 at concrete sniffer environments: an empty file
short-circuits to unknown with no tool invocation, and a non-empty file
with a failing probe, a signature-less header and no extension falls back
to the falsy unknown tag. -/
theorem C8_sniffer_total_witness :
    detect_audio_format
        { pathExists := .ok true, getSize := .ok 0, probe := .error .fileNotFoundError,
          header := .ok [], ext := "mp3" } = .ok ([], none)
    ∧ detect_audio_format
        { pathExists := .ok true, getSize := .ok 7, probe := .error .timeoutExpired,
          header := .ok [], ext := "" } = .ok ([.ffprobe], some "")
    ∧ noTag (some "") = true := by
  refine ⟨?_, ?_, rfl⟩
  · exact C8_sniffer_total.2.1 _ (Or.inr (Or.inr (Or.inl rfl)))
  · exact (C8_sniffer_total.2.2
      { pathExists := .ok true, getSize := .ok 7, probe := .error .timeoutExpired,
        header := .ok [], ext := "" } 7 [] rfl rfl (by decide) rfl rfl (by decide)).1

/-- C6 counterexample: a zero-byte file named `*.mp3`.  The sniffer does
return unknown before any tool invocation, but `validate_audio_file`
falls back to the filename extension (`format_to_check = detected_format
or extension`, utils.py line 568), finds `mp3` supported, and accepts the
file — no `InvalidAudioFormat` is raised, contradicting the claim that a
zero-byte file is rejected regardless of its extension. -/
theorem C6_zero_byte_counterexample :
    detect_audio_format (sniffEnvOf zeroByteMp3Env) = .ok ([], none)
    ∧ validate_audio_file specFormatSettings zeroByteMp3Env =
        .ok { valid := true, format := none, file_size := 0,
              duration := none, sample_rate := none } :=
  ⟨rfl, rfl⟩

/-- C6 (amended): for every zero-byte file the sniffer returns unknown
before any tool invocation, and validation then falls back to the
filename extension — it raises `InvalidAudioFormat` exactly when the
extension is empty or unsupported, and accepts the file as valid when the
extension is supported. -/
theorem C6_zero_byte_amended :
    ∀ (s : FormatSettings) (env : ValidateEnv),
      env.pathExistsV = true → env.sizeV = 0 →
      detect_audio_format (sniffEnvOf env) = .ok ([], none)
      ∧ (env.ext = "" ∨ env.ext ∉ s.supported_formats →
          validate_audio_file s env =
            .error (.invalidAudioFormat (if env.ext = "" then "unknown" else env.ext)))
      ∧ (env.ext ≠ "" → env.ext ∈ s.supported_formats →
          ∃ info, validate_audio_file s env = .ok info ∧ info.valid = true) := by
  intro s env h1 h2
  have hdet : detect_audio_format (sniffEnvOf env) = .ok ([], none) := by
    simp [detect_audio_format, sniffEnvOf, h1, h2]
  refine ⟨hdet, ?_, ?_⟩
  · intro hcase
    by_cases hext : env.ext = ""
    · simp [validate_audio_file, h1, h2, hdet, hext]
    · rcases hcase with hc | hc
      · exact absurd hc hext
      · simp [validate_audio_file, h1, h2, hdet, hext, hc]
  · intro hne hsup
    by_cases hinfo : env.audioInfoOk
    · exact ⟨{ valid := true, format := none, file_size := 0,
               duration := env.durationV, sample_rate := env.sampleRateV },
        by simp [validate_audio_file, h1, h2, hdet, hne, hsup, hinfo], rfl⟩
    · exact ⟨{ valid := true, format := none, file_size := 0,
               duration := none, sample_rate := none },
        by simp [validate_audio_file, h1, h2, hdet, hne, hsup, hinfo], rfl⟩

/-- Witness for the amended C6 at concrete zero-byte files: an
unsupported extension is rejected with `InvalidAudioFormat`, a supported
one is accepted as valid. -/
theorem C6_zero_byte_amended_witness :
    validate_audio_file specFormatSettings zeroByteTxtEnv =
      .error (.invalidAudioFormat "txt")
    ∧ ∃ info, validate_audio_file specFormatSettings zeroByteMp3Env = .ok info
        ∧ info.valid = true := by
  constructor
  · exact (C6_zero_byte_amended specFormatSettings zeroByteTxtEnv rfl rfl).2.1
      (Or.inr (by decide))
  · exact (C6_zero_byte_amended specFormatSettings zeroByteMp3Env rfl rfl).2.2
      (by decide) (by decide)

end AudioPlatform
